/-
Verification of the azcaptchaapi client library (src/azcaptchaapi/__init__.py)
against its natural-language specification.

The Python source is shallowly embedded: each network-issuing operation is a
pure function from the operation's inputs and the response(s) the transport
would deliver to the operation's outcome (an `Except` value mirroring Python
exceptions) together with the resulting object state and the requests issued.
-/
import Mathlib

namespace AZCaptcha

/-- The Python exception values the library can raise or observe.
`clientError` stands for any `aiohttp.client_exceptions.ClientError`
(transport-level failure); `operationFailedError text` carries the raw
response body that the source interpolates into the message
`"Operation failed: %r"`. -/
inductive PyExc where
  | clientError
  | valueError (msg : String)
  | indexError
  | operationFailedError (text : String)
  | responseFormatError (msg : String)
  | communicationError (msg : String)
  deriving DecidableEq

/-- A Python value as far as `report_bad` compares one: either a `str`, or
the *bound coroutine method* `resp.text` (the source writes `resp.text`
without calling or awaiting it, so the comparison operand is the method
object itself, not the body string; we record the body it closes over). -/
inductive PyVal where
  | str (s : String)
  | boundTextMethod (body : String)
  deriving DecidableEq

/-- Python `==` on the values above: two `str`s compare by content; a bound
method object is never equal to a `str` (Python falls back to identity /
`NotImplemented`, yielding `False` for `method == str`). The source only
ever compares `resp.text` against a `str` literal. -/
def pyEq : PyVal → PyVal → Bool
  | .str a, .str b => a == b
  | _, _ => false

/-- The outcome the transport delivers for one HTTP request: a
connection-level failure (an `aiohttp` `ClientError`) or a response whose
body text is `text`. -/
inductive NetResp where
  | fail
  | body (text : String)
  deriving DecidableEq

/-- Python `text.split(sep)` for a one-character separator `sep`:
`"a|b|".split("|") == ["a", "b", ""]`, `"".split("|") == [""]`. -/
def splitOnChar (sep : Char) : List Char → List (List Char)
  | [] => [[]]
  | c :: cs =>
    match splitOnChar sep cs with
    | [] => [[]]
    | h :: t => if c = sep then [] :: h :: t else (c :: h) :: t

/-- Python `text.split('|')` on a `String`. -/
def pySplitPipe (s : String) : List String :=
  (splitOnChar '|' s.data).map (fun l => String.mk l)

/-- Python `'|' in text` (substring membership of a one-character needle is
character membership). -/
def pipeMem (s : String) : Bool :=
  decide ('|' ∈ s.data)

/-- Parses the remainder of a decimal numeric character reference after the
leading `&#`: consumes decimal digits and a terminating `;`, returning the
code point and the rest of the input, or `none` if the text does not have
that shape. `acc` is the value of the digits consumed so far and `seen`
records whether at least one digit was consumed. -/
def parseNumRef : List Char → Nat → Bool → Option (Nat × List Char)
  | [], _, _ => none
  | c :: cs, acc, seen =>
    if c = ';' then
      if seen then some (acc, cs) else none
    else if c.isDigit then
      parseNumRef cs (acc * 10 + (c.toNat - 48)) true
    else none

/-- Modelled from the spec: the external HTML-entity-unescaping collaborator
(`html.unescape`), restricted to well-formed decimal numeric character
references `&#N;`; every other character passes through unchanged. The
scanner is fuel-indexed; every step consumes at least one input character,
so fuel equal to the input length suffices (see `unescapeChars`). -/
def unescapeFuel : Nat → List Char → List Char
  | 0, cs => cs
  | fuel + 1, cs =>
    match cs with
    | [] => []
    | '&' :: '#' :: rest =>
      match parseNumRef rest 0 false with
      | some (n, rest') => Char.ofNat n :: unescapeFuel fuel rest'
      | none => '&' :: '#' :: unescapeFuel fuel rest
    | c :: cs' => c :: unescapeFuel fuel cs'

/-- Modelled from the spec: HTML-entity unescaping on a character list. -/
def unescapeChars (cs : List Char) : List Char :=
  unescapeFuel cs.length cs

/-- Modelled from the spec: HTML-entity unescaping on a `String`
(the source's `unescape`). -/
def unescapeStr (s : String) : String :=
  String.mk (unescapeChars s.data)

/-- Python `d[k] = v` on a `dict` represented as an insertion-ordered
association list: overwrite in place if `k` is present, else append. -/
def dictInsert : List (String × String) → String → String → List (String × String)
  | [], k, v => [(k, v)]
  | (k', v') :: rest, k, v =>
    if k' = k then (k, v) :: rest else (k', v') :: dictInsert rest k v

/-- Python `d.get(k)`: the value bound to `k`, if any. -/
def dictLookup : List (String × String) → String → Option String
  | [], _ => none
  | (k', v') :: rest, k => if k' = k then some v' else dictLookup rest k

/-- A GET request as issued by `AZCaptchaApi.get`: target URL and the query
parameters sent. -/
structure GetRequest where
  url : String
  reqParams : List (String × String)
  deriving DecidableEq

/-- A POST request as issued by `AZCaptchaApi.post`: target URL and the
multipart form fields sent, in order (`aiohttp.FormData.add_field`
appends). -/
structure PostRequest where
  url : String
  fields : List (String × String)
  deriving DecidableEq

/-- `AZCaptchaApi`: holds the API key. -/
structure AZCaptchaApi where
  api_key : String
  deriving DecidableEq

def BASE_URL : String := "http://azcaptcha.com"
def REQ_URL : String := BASE_URL ++ "/in.php"
def RES_URL : String := BASE_URL ++ "/res.php"
def LOAD_URL : String := BASE_URL ++ "/load.php"

/-- `AZCaptchaApi.get`: executes `params['key'] = self.api_key` (an in-place
mutation of the caller's dict) and then issues `session.get(url, params=params)`.
Returns the request issued and the caller's dict as it stands after the
call (the very same, mutated, container that was sent). -/
def AZCaptchaApi.get (api : AZCaptchaApi) (url : String)
    (params : List (String × String)) : GetRequest × List (String × String) :=
  (⟨url, dictInsert params "key" api.api_key⟩, dictInsert params "key" api.api_key)

/-- `AZCaptchaApi.post`: executes `data.add_field('key', self.api_key)` (an
in-place mutation of the caller's `FormData`, appending a field) and then
issues `session.post(url, data=data)`. Returns the request issued and the
caller's form as it stands after the call. -/
def AZCaptchaApi.post (api : AZCaptchaApi) (url : String)
    (data : List (String × String)) : PostRequest × List (String × String) :=
  (⟨url, data ++ [("key", api.api_key)]⟩, data ++ [("key", api.api_key)])

/-- The decorator `_rewrite_http_to_com_err`: rewrites an escaping
`aiohttp` `ClientError` to a `CommunicationError`; every other outcome
passes through. -/
def rewrite_http_to_com_err {α : Type} (r : Except PyExc α) : Except PyExc α :=
  match r with
  | .error .clientError =>
    .error (.communicationError "an error occurred while communicating with the AZCaptcha API")
  | r => r

/-- The decorator `_rewrite_to_format_err(*exception_types)`: rewrites an
escaping exception matched by `p` (the `isinstance` test against the listed
types) to a `ResponseFormatError`; every other outcome passes through. -/
def rewrite_to_format_err {α : Type} (p : PyExc → Bool) (r : Except PyExc α) :
    Except PyExc α :=
  match r with
  | .error e =>
    if p e then .error (.responseFormatError "unexpected response format") else .error e
  | .ok v => .ok v

/-- `isinstance(e, ValueError)`: the type list of the
`_rewrite_to_format_err(ValueError)` decoration on `try_get_result`. -/
def is_value_error : PyExc → Bool
  | .valueError _ => true
  | _ => false

/-- `isinstance(e, (IndexError, ValueError))`: the type list of the
`_rewrite_to_format_err(IndexError, ValueError)` decoration on `solve`. -/
def is_index_or_value_error : PyExc → Bool
  | .valueError _ => true
  | .indexError => true
  | _ => false

/-- The loop body of `retry_on_timeout`'s `wrapper`, indexed by the number
of loop iterations still allowed (`max_retries - retries`). With fuel `0`
the `while` condition is false and the wrapper falls through, returning
Python `None` (modelled as `.ok none`). Otherwise one attempt runs: a
normal return is passed out as `some`; on an exception, if the retry
counter has reached `max_retries` (fuel was `1`) the exception is
re-raised, else the wrapper sleeps (pure time, not modelled) and loops.
The underlying coroutine is modelled as a state transformer so that
attempt side effects (consumed responses, issued requests) thread through
retries. -/
def retryAux {σ α : Type} (func : σ → Except PyExc α × σ) :
    Nat → σ → Except PyExc (Option α) × σ
  | 0, st => (.ok none, st)
  | fuel + 1, st =>
    match func st with
    | (.ok v, st') => (.ok (some v), st')
    | (.error e, st') =>
      match fuel with
      | 0 => (.error e, st')
      | _ + 1 => retryAux func fuel st'

/-- `retry_on_timeout(max_retries, wait_time=1)` applied to a coroutine:
starts the loop with `retries = 0`, i.e. with `max_retries` iterations
allowed. The `wait_time` delay between attempts is pure elapsed time and
has no observable effect in this embedding. -/
def retry_on_timeout {σ α : Type} (max_retries : Nat)
    (func : σ → Except PyExc α × σ) (st : σ) : Except PyExc (Option α) × σ :=
  retryAux func max_retries st

/-- A queued captcha (`Captcha.__init__`): the api back-reference, the id
assigned by the service, `_cached_result = None` and
`_reported_bad = False` at construction. -/
structure Captcha where
  api : AZCaptchaApi
  captcha_id : String
  cached_result : Option String
  reported_bad : Bool
  deriving DecidableEq

/-- The parameter set `solve` sends, per
`data = captcha_parameters or {'method': 'post'}`: Python `or` yields its
first operand when truthy, so a non-empty caller dict is used verbatim and
the default is used when `captcha_parameters` is `None` or an empty dict.
(The form additionally carries the `file` field and, via `post`, the
`key` field; those are not part of this parameter set.) -/
def solve_data (captcha_parameters : Option (List (String × String))) :
    List (String × String) :=
  match captcha_parameters with
  | none => [("method", "post")]
  | some ps => if ps = [] then [("method", "post")] else ps

/-- Modelled from the spec: the parameter set §4.1 describes for `submit` —
the default `[(method, post)]` "merged with/overridden by caller-supplied
parameters". Stated for comparison with `solve_data`, which embeds the
source. -/
def solve_data_merge_spec (captcha_parameters : Option (List (String × String))) :
    List (String × String) :=
  match captcha_parameters with
  | none => [("method", "post")]
  | some ps => ps.foldl (fun d kv => dictInsert d kv.1 kv.2) [("method", "post")]

/-- The response-handling tail of `AZCaptchaApi.solve`, as a function of the
submit response body: if `'|' in text`, evaluate
`_, captcha_id = text.split('|')` — a 2-tuple unpack that raises
`ValueError` unless the split has exactly two parts — and return
`Captcha(self, captcha_id)`; otherwise raise
`OperationFailedError("Operation failed: %r" % (text,))`. -/
def solve_handle (api : AZCaptchaApi) (text : String) : Except PyExc Captcha :=
  if pipeMem text then
    match pySplitPipe text with
    | [_, captcha_id] => .ok ⟨api, captcha_id, none, false⟩
    | _ => .error (.valueError "values to unpack")
  else
    .error (.operationFailedError text)

/-- `AZCaptchaApi.solve` as observed by the caller: the response handling
wrapped in the decorators `_rewrite_to_format_err(IndexError, ValueError)`
and, outermost, `_rewrite_http_to_com_err`. -/
def solve (api : AZCaptchaApi) (text : String) : Except PyExc Captcha :=
  rewrite_http_to_com_err (rewrite_to_format_err is_index_or_value_error (solve_handle api text))

/-- The params dict literal `try_get_result` builds for its poll GET. -/
def pollGetParams (c : Captcha) : List (String × String) :=
  [("action", "get"), ("id", c.captcha_id)]

/-- The poll GET request `try_get_result` issues via `self.api.get`
(which inserts the `key` entry). -/
def pollReq (c : Captcha) : GetRequest :=
  (c.api.get RES_URL (pollGetParams c)).1

/-- The observable state threaded through poll attempts: the captcha
object, how many transport responses have been consumed (the index of the
next one), and every request issued so far, oldest first. -/
structure PollState where
  captcha : Captcha
  consumed : Nat
  requests : List GetRequest
  deriving DecidableEq

/-- One attempt of the undecorated `Captcha.try_get_result` body, with the
transport modelled by `env` (the `n`-th issued poll request receives
outcome `env n`): return the cached result if present (no request); else
issue the poll GET and interpret the response: body containing `'|'` —
`_, captcha_text = unescape(text).split('|')` (a 2-tuple unpack, raising
`ValueError` unless exactly two parts), cache and return the text; body
equal to either not-ready sentinel — return `None`; any other body —
raise `OperationFailedError` carrying the body; transport failure — the
`ClientError` escapes. -/
def tgrAttempt (env : Nat → NetResp) (st : PollState) :
    Except PyExc (Option String) × PollState :=
  match st.captcha.cached_result with
  | some v => (.ok (some v), st)
  | none =>
    let st' : PollState :=
      ⟨st.captcha, st.consumed + 1, st.requests ++ [pollReq st.captcha]⟩
    match env st.consumed with
    | .fail => (.error .clientError, st')
    | .body text =>
      if pipeMem text then
        match pySplitPipe (unescapeStr text) with
        | [_, captcha_text] =>
          (.ok (some captcha_text),
           ⟨{ st.captcha with cached_result := some captcha_text },
            st'.consumed, st'.requests⟩)
        | _ => (.error (.valueError "values to unpack"), st')
      else if text = "CAPCHA_NOT_READY" ∨ text = "CAPTCHA_NOT_READY" then
        (.ok none, st')
      else
        (.error (.operationFailedError text), st')

/-- `Captcha.try_get_result` as observed by the caller: the attempt body
wrapped in `retry_on_timeout(max_retries=3, wait_time=1)` (innermost),
then `_rewrite_to_format_err(ValueError)`, then `_rewrite_http_to_com_err`
(outermost). The result's outer `Option` is the wrapper's fall-through
`None` (never produced when `max_retries = 3`); the inner `Option String`
is `try_get_result`'s own not-ready `None` versus the captcha text. -/
def try_get_result (env : Nat → NetResp) (st : PollState) :
    Except PyExc (Option (Option String)) × PollState :=
  let p := retry_on_timeout 3 (tgrAttempt env) st
  (rewrite_http_to_com_err (rewrite_to_format_err is_value_error p.1), p.2)

/-- The params dict literal `report_bad` builds for its GET. -/
def reportBadParams (c : Captcha) : List (String × String) :=
  [("action", "reportbad"), ("id", c.captcha_id)]

/-- The report GET request `report_bad` issues via `self.api.get`. -/
def reportReq (c : Captcha) : GetRequest :=
  (c.api.get RES_URL (reportBadParams c)).1

/-- The undecorated body of `Captcha.report_bad`, with `resp` the transport
outcome of its GET (consumed only if the method reaches the request).
Raises `ValueError` locally when no result is cached yet or when
`_reported_bad` is set; otherwise issues the GET and evaluates
`if resp.text != 'OK_REPORT_RECORDED'` — where `resp.text` is the
*unawaited bound method* (see `PyVal`), so the test compares a method
object against a `str`. No statement in the source ever assigns
`self._reported_bad`, so the returned captcha is unchanged on every path.
The third component is the request issued, if any. -/
def report_bad_body (c : Captcha) (resp : NetResp) :
    Except PyExc Unit × Captcha × Option GetRequest :=
  if c.cached_result = none then
    (.error (.valueError "tried reporting bad state for captcha not yet retrieved"), c, none)
  else if c.reported_bad then
    (.error (.valueError "tried double-reporting bad captcha"), c, none)
  else
    match resp with
    | .fail => (.error .clientError, c, some (reportReq c))
    | .body b =>
      if pyEq (PyVal.boundTextMethod b) (PyVal.str "OK_REPORT_RECORDED") = false then
        (.error (.responseFormatError "unexpected API response"), c, some (reportReq c))
      else
        (.ok (), c, some (reportReq c))

/-- `Captcha.report_bad` as observed by the caller: the body wrapped in
`_rewrite_http_to_com_err`. -/
def report_bad (c : Captcha) (resp : NetResp) :
    Except PyExc Unit × Captcha × Option GetRequest :=
  let t := report_bad_body c resp
  (rewrite_http_to_com_err t.1, t.2)

/- Concrete instances used to evaluate the operations at the inputs named
by the analysed behaviors. -/

/-- An api client with an arbitrary concrete key. -/
def apiK : AZCaptchaApi := ⟨"key123"⟩

/-- A freshly constructed captcha (as returned by a successful `solve`). -/
def freshCaptcha : Captcha := ⟨apiK, "42", none, false⟩

/-- A fresh poll state: nothing cached, no responses consumed, no requests
issued. -/
def stFresh : PollState := ⟨freshCaptcha, 0, []⟩

/-- A captcha whose result has been retrieved and cached. -/
def ticketResolved : Captcha := ⟨apiK, "42", some "sol", false⟩

/-- A poll state over a resolved captcha. -/
def stCached : PollState := ⟨⟨apiK, "42", some "abc", false⟩, 5, []⟩

/-- The poll-response sequence of the spec's three-call scenario: the
correctly spelled not-ready sentinel, then the service's typo variant,
then a success body. -/
def env7 : Nat → NetResp := fun n =>
  if n = 0 then .body "CAPTCHA_NOT_READY"
  else if n = 1 then .body "CAPCHA_NOT_READY"
  else .body "OK|abc123"

/-- Poll state after the first call of the three-call scenario. -/
def c7s1 : PollState := (try_get_result env7 stFresh).2

/-- Poll state after the second call of the three-call scenario. -/
def c7s2 : PollState := (try_get_result env7 c7s1).2

/-- Poll state after the third call of the three-call scenario. -/
def c7s3 : PollState := (try_get_result env7 c7s2).2

/-- Transport outcomes: failures on the first two attempts, success on the
third. -/
def env8a : Nat → NetResp := fun n => if n < 2 then .fail else .body "OK|abc123"

/-- Transport outcomes: a service failure code, a transport failure, then a
second, distinct service failure code — to observe which failure the retry
wrapper propagates. -/
def env8c : Nat → NetResp := fun n =>
  if n = 0 then .body "ERROR_A" else if n = 1 then .fail else .body "ERROR_B"

/- Helper lemmas. -/

/-- `splitOnChar` always yields at least one piece. -/
theorem splitOnChar_ne_nil (sep : Char) (l : List Char) : splitOnChar sep l ≠ [] := by
  cases l with
  | nil => simp [splitOnChar]
  | cons c cs =>
    simp only [splitOnChar]
    cases h : splitOnChar sep cs with
    | nil => simp
    | cons h t =>
      by_cases hc : c = sep <;> simp [hc]

/-- A separator-free list is a single piece. -/
theorem splitOnChar_of_not_mem {sep : Char} {l : List Char} (h : sep ∉ l) :
    splitOnChar sep l = [l] := by
  induction l with
  | nil => rfl
  | cons c cs ih =>
    have h2 : sep ∉ cs := fun hm => h (by simp [hm])
    have hc : ¬ c = sep := fun he => h (by simp [he])
    simp [splitOnChar, ih h2, hc]

/-- Splitting at the first separator occurrence: a separator-free chunk
followed by the separator peels off as the first piece. -/
theorem splitOnChar_append_cons {sep : Char} {l : List Char} (r : List Char)
    (h : sep ∉ l) : splitOnChar sep (l ++ sep :: r) = l :: splitOnChar sep r := by
  induction l with
  | nil =>
    simp only [List.nil_append, splitOnChar]
    cases hr : splitOnChar sep r with
    | nil => exact absurd hr (splitOnChar_ne_nil sep r)
    | cons hh tt => simp
  | cons c cs ih =>
    have h2 : sep ∉ cs := fun hm => h (by simp [hm])
    have hc : ¬ c = sep := fun he => h (by simp [he])
    simp only [List.cons_append, splitOnChar, List.append_eq]
    rw [ih h2]
    simp [hc]

/-- Overwriting or adding a binding makes lookup of that key return the new
value. -/
theorem dictLookup_dictInsert (d : List (String × String)) (k v : String) :
    dictLookup (dictInsert d k v) k = some v := by
  induction d with
  | nil => simp [dictInsert, dictLookup]
  | cons kv rest ih =>
    by_cases h : kv.1 = k <;> simp [dictInsert, dictLookup, h, ih]

/-- Re-inserting the same binding is a no-op on an already-updated dict. -/
theorem dictInsert_dictInsert (d : List (String × String)) (k v : String) :
    dictInsert (dictInsert d k v) k v = dictInsert d k v := by
  induction d with
  | nil => simp [dictInsert]
  | cons kv rest ih =>
    by_cases h : kv.1 = k <;> simp [dictInsert, h, ih]

/-- `pipeMem` decides character membership of the delimiter. -/
theorem pipeMem_eq_true_iff (s : String) : pipeMem s = true ↔ '|' ∈ s.data := by
  simp [pipeMem]

/-- The character data of `a ++ "|" ++ b`. -/
theorem data_append_pipe (a b : String) :
    (a ++ "|" ++ b).data = a.data ++ '|' :: b.data := by
  simp [String.data_append]

/- Claim theorems. -/

/-- Rebuilding a string from its character data is the identity. -/
theorem mk_data (s : String) : String.mk s.data = s := rfl

/-- One retry-wrapper step on a successful attempt: with at least one loop
iteration allowed, a normal return of the wrapped coroutine is passed out
as `some`. -/
theorem retryAux_ok {σ α : Type} (func : σ → Except PyExc α × σ) (fuel : Nat)
    (st st' : σ) (v : α) (h : func st = (.ok v, st')) :
    retryAux func (fuel + 1) st = (.ok (some v), st') := by
  simp [retryAux, h]

/-- C1: the claim says a second `report_bad` on a resolved ticket fails with
a local usage error raised before any network call, because `reported_bad`
transitions from false to true on the first issued report. Evaluating the
code at that scenario shows otherwise: the first call (response body
exactly `OK_REPORT_RECORDED`) leaves the ticket unchanged — no statement in
the source ever assigns `_reported_bad` — and the second call therefore
passes the guard, issues another network request (the third component is
`some` request) and fails with `ResponseFormatError`, not with the local
`ValueError` usage error. -/
theorem C1_reported_bad_never_set :
    ticketResolved.reported_bad = false ∧
    (report_bad ticketResolved (NetResp.body "OK_REPORT_RECORDED")).2.1 = ticketResolved ∧
    report_bad (report_bad ticketResolved (NetResp.body "OK_REPORT_RECORDED")).2.1
        (NetResp.body "OK_REPORT_RECORDED") =
      (Except.error (PyExc.responseFormatError "unexpected API response"),
       ticketResolved, some (reportReq ticketResolved)) :=
  ⟨rfl, rfl, rfl⟩

/-- C2: the claim says `report_bad` on a resolved, not-yet-reported ticket
completes without error exactly when the response body is
`OK_REPORT_RECORDED`. Evaluating the code at that body shows it raises
`ResponseFormatError` even then: the source compares the *unawaited bound
method* `resp.text` — not the body — against the literal, and a method
object never equals a `str`, so the error branch is always taken. The GET
with `action=reportbad` is issued (third component `some`), and any other
body also raises `ResponseFormatError` (the half of the claim the code
does satisfy). -/
theorem C2_ok_body_still_raises :
    report_bad ticketResolved (NetResp.body "OK_REPORT_RECORDED") =
      (Except.error (PyExc.responseFormatError "unexpected API response"),
       ticketResolved, some (reportReq ticketResolved)) ∧
    (reportReq ticketResolved).reqParams =
      [("action", "reportbad"), ("id", "42"), ("key", "key123")] ∧
    (report_bad ticketResolved (NetResp.body "ERROR_REPORT_NOT_RECORDED")).1 =
      Except.error (PyExc.responseFormatError "unexpected API response") :=
  ⟨rfl, rfl, rfl⟩

/-- C3 counterexample: the claim says *any* body containing the delimiter,
regardless of how many times, makes `submit` succeed. On the body
`OK|a|b`, which does contain the delimiter, the 2-tuple unpack of
`text.split('|')` (three parts) raises `ValueError`, which the decorator
rewrites to `ResponseFormatError`: `solve` does not succeed. -/
theorem C3_counterexample :
    pipeMem "OK|a|b" = true ∧
    solve apiK "OK|a|b" =
      Except.error (PyExc.responseFormatError "unexpected response format") :=
  ⟨rfl, rfl⟩

/-- C4 counterexample: the claim says the caller's parameters are merged
with, and override, the default `[(method, post)]`. For the caller dict
`[(min_len, 2)]` the code sends exactly that dict — the default is
discarded, and the sent parameter set has no `method` entry at all —
whereas the merge the spec describes would retain `(method, post)`. -/
theorem C4_counterexample :
    solve_data (some [("min_len", "2")]) = [("min_len", "2")] ∧
    solve_data_merge_spec (some [("min_len", "2")]) =
      [("method", "post"), ("min_len", "2")] ∧
    dictLookup (solve_data (some [("min_len", "2")])) "method" = none :=
  ⟨rfl, rfl, rfl⟩

/-- C5 counterexample: the claim says `try_get_result` returns the
HTML-unescaped text after the delimiter for *every* body containing the
delimiter, including ones where an entity decodes to the delimiter itself.
On the body `OK|&#124;` the entity `&#124;` decodes to `|`; the code
unescapes the whole body *first* (getting `OK||`) and then 2-tuple-unpacks
the split (three parts), raising `ValueError` on every one of the three
retry attempts; the final failure is rewritten to `ResponseFormatError`.
Nothing is cached and nothing is returned. -/
theorem C5_counterexample :
    unescapeStr "&#124;" = "|" ∧
    try_get_result (fun _ => NetResp.body "OK|&#124;") stFresh =
      (Except.error (PyExc.responseFormatError "unexpected response format"),
       ⟨freshCaptcha, 3, [pollReq freshCaptcha, pollReq freshCaptcha, pollReq freshCaptcha]⟩) :=
  ⟨rfl, rfl⟩

/-- C7: given the poll responses `CAPTCHA_NOT_READY`, `CAPCHA_NOT_READY`
(the service's typo variant), `OK|abc123`, three successive
`try_get_result` calls on a fresh ticket return empty (`None`), empty, and
`abc123`; the ticket is still pending (nothing cached) after the first two
calls and resolved with cached value `abc123` after the third; each call
consumes exactly one response (the sentinels are neither retried nor
errors). -/
theorem C7_poll_sequence :
    (try_get_result env7 stFresh).1 = Except.ok (some none) ∧
    c7s1.captcha.cached_result = none ∧
    c7s1.consumed = 1 ∧
    (try_get_result env7 c7s1).1 = Except.ok (some none) ∧
    c7s2.captcha.cached_result = none ∧
    c7s2.consumed = 2 ∧
    (try_get_result env7 c7s2).1 = Except.ok (some (some "abc123")) ∧
    c7s3.captcha.cached_result = some "abc123" ∧
    c7s3.consumed = 3 :=
  ⟨rfl, rfl, rfl, rfl, rfl, rfl, rfl, rfl, rfl⟩

/-- C8: under `max_retries = 3`, a poll whose transport fails on the first
two attempts and succeeds on the third returns the successful result and
raises nothing; when every attempt fails, only the final attempt's failure
propagates — a final transport failure surfaces as `CommunicationError`
(after exactly three attempts), and with the attempt sequence
`OperationFailed(ERROR_A)`, transport failure, `OperationFailed(ERROR_B)`
the caller sees only `ERROR_B`, the intermediate failures being
discarded. -/
theorem C8_bounded_retry :
    (try_get_result env8a stFresh).1 = Except.ok (some (some "abc123")) ∧
    (try_get_result (fun _ => NetResp.fail) stFresh).1 =
      Except.error (PyExc.communicationError
        "an error occurred while communicating with the AZCaptcha API") ∧
    (try_get_result (fun _ => NetResp.fail) stFresh).2.consumed = 3 ∧
    (try_get_result env8c stFresh).1 =
      Except.error (PyExc.operationFailedError "ERROR_B") :=
  ⟨rfl, rfl, rfl, rfl⟩

/-- C3 amended: for every submit response body containing *exactly one*
delimiter — a body `a|b` with `a` and `b` delimiter-free — `solve`
succeeds and returns a ticket whose id is exactly the substring `b` after
the delimiter (with an empty cache and a clear reported flag); a body with
two or more delimiters instead raises `ResponseFormatError`, the rewrite
of the `ValueError` from the failed 2-tuple unpack. -/
theorem C3_amended_exactly_one_delimiter (api : AZCaptchaApi) (a b c : String)
    (ha : '|' ∉ a.data) (hb : '|' ∉ b.data) (hc : '|' ∉ c.data) :
    solve api (a ++ "|" ++ b) = Except.ok ⟨api, b, none, false⟩ ∧
    solve api (a ++ "|" ++ b ++ "|" ++ c) =
      Except.error (PyExc.responseFormatError "unexpected response format") := by
  have hd1 : (a ++ "|" ++ b).data = a.data ++ '|' :: b.data := data_append_pipe a b
  have hd2 : (a ++ "|" ++ b ++ "|" ++ c).data
      = a.data ++ '|' :: (b.data ++ '|' :: c.data) := by
    simp [String.data_append]
  have hp1 : pipeMem (a ++ "|" ++ b) = true := by
    simp [pipeMem, hd1]
  have hp2 : pipeMem (a ++ "|" ++ b ++ "|" ++ c) = true := by
    simp [pipeMem, hd2]
  have hs1 : pySplitPipe (a ++ "|" ++ b) = [a, b] := by
    simp [pySplitPipe, hd1, splitOnChar_append_cons b.data ha,
      splitOnChar_of_not_mem hb, mk_data]
  have hs2 : pySplitPipe (a ++ "|" ++ b ++ "|" ++ c) = [a, b, c] := by
    simp [pySplitPipe, hd2, splitOnChar_append_cons (b.data ++ '|' :: c.data) ha,
      splitOnChar_append_cons c.data hb, splitOnChar_of_not_mem hc, mk_data]
  constructor
  · simp [solve, solve_handle, hp1, hs1, rewrite_to_format_err, rewrite_http_to_com_err]
  · simp [solve, solve_handle, hp2, hs2, rewrite_to_format_err,
      rewrite_http_to_com_err, is_index_or_value_error]

/-- C3 amended, witnessed at the body `OK|abc` (one delimiter: ticket id
`abc`) and the body `OK|abc|zz` (two delimiters: `ResponseFormatError`). -/
theorem C3_amended_witness :
    solve apiK ("OK" ++ "|" ++ "abc") = Except.ok ⟨apiK, "abc", none, false⟩ ∧
    solve apiK ("OK" ++ "|" ++ "abc" ++ "|" ++ "zz") =
      Except.error (PyExc.responseFormatError "unexpected response format") :=
  C3_amended_exactly_one_delimiter apiK "OK" "abc" "zz"
    (by decide) (by decide) (by decide)

/-- C4 amended: `solve` sends exactly the default `[(method, post)]` when no
parameters (or an empty dict) are supplied, and exactly the caller's dict
when a non-empty one is supplied — the default is discarded, not merged: a
caller dict without a `method` entry yields a sent parameter set without a
`method` entry. -/
theorem C4_amended_replaces_default (ps : List (String × String)) (h : ps ≠ []) :
    solve_data none = [("method", "post")] ∧
    solve_data (some []) = [("method", "post")] ∧
    solve_data (some ps) = ps ∧
    (dictLookup ps "method" = none → dictLookup (solve_data (some ps)) "method" = none) := by
  have h3 : solve_data (some ps) = ps := by simp [solve_data, h]
  exact ⟨rfl, rfl, h3, fun hm => by rw [h3]; exact hm⟩

/-- C4 amended, witnessed at the caller dict `[(min_len, 2)]`: it is sent
verbatim and carries no `method` entry. -/
theorem C4_amended_witness :
    solve_data (some [("min_len", "2")]) = [("min_len", "2")] ∧
    dictLookup (solve_data (some [("min_len", "2")])) "method" = none := by
  have h := C4_amended_replaces_default [("min_len", "2")] (by decide)
  exact ⟨h.2.2.1, h.2.2.2 rfl⟩

/-- C5 amended: `try_get_result` un-escapes the *entire* body first and
then splits on the delimiter, requiring exactly two parts: whenever the
unescaped body splits as `[a, b]`, the text `b` after the delimiter *of
the unescaped body* is cached, the ticket becomes resolved, and `b` is
returned (one response consumed, one poll request issued). Bodies where an
entity decodes to the delimiter itself make the unpack fail and raise
`ResponseFormatError` instead (see the counterexample). -/
theorem C5_amended_unescape_whole_body (env : Nat → NetResp) (st : PollState)
    (text a b : String)
    (hcache : st.captcha.cached_result = none)
    (henv : env st.consumed = NetResp.body text)
    (hpipe : pipeMem text = true)
    (hsplit : pySplitPipe (unescapeStr text) = [a, b]) :
    try_get_result env st =
      (Except.ok (some (some b)),
       ⟨{ st.captcha with cached_result := some b }, st.consumed + 1,
        st.requests ++ [pollReq st.captcha]⟩) := by
  have hatt : tgrAttempt env st =
      (Except.ok (some b),
       ⟨{ st.captcha with cached_result := some b }, st.consumed + 1,
        st.requests ++ [pollReq st.captcha]⟩) := by
    simp [tgrAttempt, hcache, henv, hpipe, hsplit]
  have hr : retry_on_timeout 3 (tgrAttempt env) st =
      (Except.ok (some (some b)),
       ⟨{ st.captcha with cached_result := some b }, st.consumed + 1,
        st.requests ++ [pollReq st.captcha]⟩) :=
    retryAux_ok (tgrAttempt env) 2 st _ (some b) hatt
  simp [try_get_result, hr, rewrite_http_to_com_err, rewrite_to_format_err]

/-- C5 amended, witnessed at the body `OK|xyz` on a fresh ticket: the
unescaped body splits as `[OK, xyz]`, and the call caches and returns
`xyz` with one request issued. -/
theorem C5_amended_witness :
    pySplitPipe (unescapeStr "OK|xyz") = ["OK", "xyz"] ∧
    try_get_result (fun _ => NetResp.body "OK|xyz") stFresh =
      (Except.ok (some (some "xyz")),
       ⟨{ freshCaptcha with cached_result := some "xyz" }, 1, [pollReq freshCaptcha]⟩) :=
  ⟨rfl, C5_amended_unescape_whole_body (fun _ => NetResp.body "OK|xyz") stFresh
    "OK|xyz" "OK" "xyz" rfl rfl rfl rfl⟩

/-- C6: on a ticket whose result is cached, `try_get_result` returns
exactly the cached value, the entire poll state — captcha, consumed
response count and issued request list — is unchanged (zero network
calls), the cache is never reassigned, and iterating the call any number
of times leaves the state fixed. -/
theorem C6_cached_result_is_final (env : Nat → NetResp) (st : PollState) (v : String)
    (h : st.captcha.cached_result = some v) :
    try_get_result env st = (Except.ok (some (some v)), st) ∧
    ∀ n : Nat, (fun s => (try_get_result env s).2)^[n] st = st := by
  have hatt : tgrAttempt env st = (Except.ok (some v), st) := by
    simp [tgrAttempt, h]
  have hr : retry_on_timeout 3 (tgrAttempt env) st = (Except.ok (some (some v)), st) :=
    retryAux_ok (tgrAttempt env) 2 st st (some v) hatt
  have hmain : try_get_result env st = (Except.ok (some (some v)), st) := by
    simp [try_get_result, hr, rewrite_http_to_com_err, rewrite_to_format_err]
  exact ⟨hmain, fun n => Function.iterate_fixed (by simp [hmain]) n⟩

/-- C6, witnessed on a resolved ticket with cached value `abc` against a
transport that would fail every request: the call returns `abc` and leaves
the state untouched. -/
theorem C6_witness :
    try_get_result (fun _ => NetResp.fail) stCached =
      (Except.ok (some (some "abc")), stCached) :=
  (C6_cached_result_is_final (fun _ => NetResp.fail) stCached "abc" rfl).1

/-- C9: every submit response body without the delimiter makes `solve` fail
with `OperationFailedError` carrying that original body (the decorators
rewrite neither `OperationFailedError` nor anything on this path). -/
theorem C9_no_delimiter_fails (api : AZCaptchaApi) (text : String)
    (h : pipeMem text = false) :
    solve api text = Except.error (PyExc.operationFailedError text) := by
  simp [solve, solve_handle, h, rewrite_to_format_err, rewrite_http_to_com_err,
    is_index_or_value_error]

/-- C9, witnessed at the failure code `ERROR_ZERO_BALANCE`. -/
theorem C9_witness :
    pipeMem "ERROR_ZERO_BALANCE" = false ∧
    solve apiK "ERROR_ZERO_BALANCE" =
      Except.error (PyExc.operationFailedError "ERROR_ZERO_BALANCE") :=
  ⟨rfl, C9_no_delimiter_fails apiK "ERROR_ZERO_BALANCE" rfl⟩

/-- C10: `get` inserts `key = api_key` into the caller-supplied params dict
in place: the request carries the key, the caller's container after the
call *is* the mutated container that was sent, and passing the mutated
dict to a second call retains the entry (the request is unchanged);
likewise `post` appends the `key` field to the caller's form, so that
request carries the key too. -/
theorem C10_key_inserted_in_place (api : AZCaptchaApi) (url : String)
    (ps form : List (String × String)) :
    dictLookup (api.get url ps).1.reqParams "key" = some api.api_key ∧
    (api.get url ps).2 = (api.get url ps).1.reqParams ∧
    api.get url (api.get url ps).2 = ((api.get url ps).1, (api.get url ps).2) ∧
    ("key", api.api_key) ∈ (api.post url form).1.fields := by
  refine ⟨dictLookup_dictInsert ps "key" api.api_key, rfl, ?_, ?_⟩
  · show api.get url (dictInsert ps "key" api.api_key) = _
    simp [AZCaptchaApi.get, dictInsert_dictInsert]
  · simp [AZCaptchaApi.post]

end AZCaptcha
